import Mathlib

/-!
# Verification of the DeviceFinder.ai RAG context service

Shallow embedding of the two source files of the repository:

* `ingest_data.py` — text chunking (`chunk_text`), file ingestion
  (`ingest_text_file`) with metadata construction.
* `mcp_server.py` — the MCP JSON-RPC endpoint (`mcp_tools_call`) and the
  query tool (`retrieve_context_tool`).

Python strings are modelled as Lean `String` / `List Char`; Python slices
`text[start:end]` become `(drop start).take (end - start)`; `str.strip()`
becomes `pyStrip`; numeric distances/scores are modelled as rationals;
every fallible external call (file system, vector store connection,
collection `count`/`query`/`add`) is an explicit `Option`/`Except`-valued
input, so that the Python functions become total Lean functions on an
explicit environment.
-/

/-- Python `str.strip()` on the character list: drop whitespace from both
ends. -/
def pyStrip (l : List Char) : List Char :=
  ((l.dropWhile Char.isWhitespace).reverse.dropWhile Char.isWhitespace).reverse

/-- `ingest_data.CHUNK_SIZE`: characters per chunk. -/
def CHUNK_SIZE : Nat := 500

/-- `ingest_data.OVERLAP`: character overlap between chunks. -/
def OVERLAP : Nat := 50

/-- The `while start < text_length` loop of `ingest_data.chunk_text`,
presented with explicit fuel: one unit of fuel per loop iteration, `none`
when the fuel is exhausted with the loop still running (i.e. the loop did
not terminate within `fuel` iterations).  Each iteration takes the slice
`text[start : start + chunk_size]`, strips it, keeps it iff non-empty, and
advances `start` by `chunk_size - overlap` (truncated subtraction: a
non-positive Python step is a step of `0` here, and in both cases the loop
never terminates). -/
def chunkFrom (text : List Char) (chunk_size overlap : Nat) :
    Nat → Nat → Option (List (List Char))
  | 0, start => if start < text.length then none else some []
  | fuel + 1, start =>
    if start < text.length then
      let chunk := pyStrip ((text.drop start).take chunk_size)
      match chunkFrom text chunk_size overlap fuel (start + (chunk_size - overlap)) with
      | some rest => some (if chunk.isEmpty then rest else chunk :: rest)
      | none => none
    else some []

/-- `ingest_data.chunk_text` on character lists: the early return for empty
text, then the chunking loop started at offset `0`.  A fuel budget of
`text.length` iterations suffices whenever `overlap < chunk_size`
(proved below); `none` means the Python loop runs forever. -/
def chunkTextChars (text : List Char) (chunk_size overlap : Nat) :
    Option (List (List Char)) :=
  if text.isEmpty then some []
  else chunkFrom text chunk_size overlap text.length 0

/-- `ingest_data.chunk_text` on `String`s.  On the divergent (`none`) case —
reachable only when `overlap ≥ chunk_size` — we return `[]`, a junk value
never relied upon. -/
def chunk_text (text : String) (chunk_size overlap : Nat) : List String :=
  match chunkTextChars text.data chunk_size overlap with
  | some chunks => chunks.map String.mk
  | none => []

/-- The chunking algorithm exactly as the specification words it (§4.1):
starting at offset `start`, repeatedly take the substring
`[start, start+chunk_size)`, trim it, append it to the output iff non-empty
after trimming, advance `start` by `chunk_size - overlap`, and stop when
`start ≥ len(text)`.  Total via well-founded recursion; the
`0 < chunk_size - overlap` guard is the spec's progress precondition. -/
def specChunksFrom (text : List Char) (chunk_size overlap : Nat) (start : Nat) :
    List (List Char) :=
  if _hlt : start < text.length ∧ 0 < chunk_size - overlap then
    let chunk := pyStrip ((text.drop start).take chunk_size)
    (if chunk.isEmpty then [] else [chunk]) ++
      specChunksFrom text chunk_size overlap (start + (chunk_size - overlap))
  else []
termination_by text.length - start
decreasing_by
  omega

/-- The specification's chunking contract (§4.1), started at offset 0, as a
`String` function, for comparison against the source's `chunk_text`. -/
def chunkTextSpecAlgorithm (text : String) (chunk_size overlap : Nat) : List String :=
  (specChunksFrom text.data chunk_size overlap 0).map String.mk

/-! ## The MCP server (`mcp_server.py`) -/

/-- `mcp_server.TOP_K_RESULTS`. -/
def TOP_K_RESULTS : Nat := 3

/-- One retrieved chunk as formatted by `retrieve_context_tool`:
`{"chunk_id": ..., "content": ..., "relevance_score": 1 - distance}`.
Scores are Python floats; modelled as rationals. -/
structure ChunkOut where
  chunk_id : String
  content : String
  relevance_score : ℚ
deriving DecidableEq, Repr

/-- The JSON object `retrieve_context_tool` serialises into the `text`
field: query echo, retrieved chunks, found-count, and the optional
`warning` key (present exactly on the failure paths). -/
structure QueryResult where
  query : String
  context_chunks : List ChunkOut
  chunks_found : Nat
  warning : Option String
deriving DecidableEq, Repr

/-- One element of the MCP `content` array: `{"type": "text", "text":
json.dumps(...)}`; the JSON-encoded payload is kept structured. -/
structure ContentItem where
  type : String
  text : QueryResult
deriving DecidableEq, Repr

/-- The MCP-formatted result of `retrieve_context_tool`:
`{"content": [ ... ]}`. -/
structure ToolResult where
  content : List ContentItem
deriving DecidableEq, Repr

/-- Build the standard single-text-item tool result. -/
def mkResult (qr : QueryResult) : ToolResult :=
  ⟨[⟨"text", qr⟩]⟩

/-- The raw answer of `context_collection.query(query_texts=[query],
n_results=k)`: parallel outer lists (one inner list per query text) of
ids, documents and distances. -/
structure StoreResults where
  ids : List (List String)
  documents : List (List String)
  distances : List (List ℚ)
deriving Repr

/-- The ChromaDB collection handle as the server observes it: `count()`
and `query(...)` each either return or raise (`Except.error` carries the
exception's string form).  `query` is consulted at the requested
`n_results`. -/
structure Collection where
  count : Except String Nat
  query : Nat → Except String StoreResults

/-- Python truthiness test `not query` on the optional `"query"` argument:
true when the key is missing or the string is empty. -/
def pyFalsy : Option String → Bool
  | none => true
  | some s => s = ""

/-- The result-formatting loop of `retrieve_context_tool`: for each index
`i` of `ids[0]`, read `documents[0][i]` and `distances[0][i]` and emit
`{chunk_id, content, relevance_score = 1 - distance}`.  `none` models the
`IndexError` Python raises when `documents[0]`/`distances[0]` are shorter
than `ids[0]` (swallowed by the tool's outermost handler). -/
def formatChunks : List String → List String → List ℚ → Option (List ChunkOut)
  | [], _, _ => some []
  | doc_id :: ids, doc :: docs, d :: dists =>
    match formatChunks ids docs dists with
    | some rest => some (⟨doc_id, doc, 1 - d⟩ :: rest)
    | none => none
  | _ :: _, _, _ => none

/-- The part of `retrieve_context_tool` downstream of the
`context_collection.query` call: convert a store failure into the
empty-result-with-warning, an empty id list into an empty result with no
warning, and otherwise format the chunks (an indexing error falling through
to the tool's unexpected-exception handler). -/
def processStoreResponse (query : String) (qres : Except String StoreResults) :
    ToolResult :=
  match qres with
  | .error e => mkResult ⟨query, [], 0, some ("ChromaDB query failed: " ++ e)⟩
  | .ok results =>
    match results.ids with
    | [] => mkResult ⟨query, [], 0, none⟩
    | inner :: _ =>
      if inner.isEmpty then mkResult ⟨query, [], 0, none⟩
      else
        match results.documents.head?, results.distances.head? with
        | some docs, some dists =>
          match formatChunks inner docs dists with
          | some chunks => mkResult ⟨query, chunks, chunks.length, none⟩
          | none =>
            mkResult ⟨query, [], 0,
              some "Unexpected error in retrieve_context: list index out of range"⟩
        | _, _ =>
          mkResult ⟨query, [], 0,
            some "Unexpected error in retrieve_context: list index out of range"⟩

/-- `mcp_server.retrieve_context_tool`.  Inputs: the global
`context_collection` (`none` when startup never initialised it) and the
`"query"` entry of the `arguments` dict (`none` when the key is absent).
Total: every Python failure path is an explicit branch returning the
empty-result-with-warning value. -/
def retrieve_context_tool (coll : Option Collection) (args : Option String) :
    ToolResult :=
  if pyFalsy args then
    mkResult ⟨"", [], 0, some "Missing required argument: 'query'"⟩
  else
    let query := args.getD ""
    match coll with
    | none => mkResult ⟨query, [], 0, some "ChromaDB collection not initialized"⟩
    | some c =>
      match c.count with
      | .error e =>
        mkResult ⟨query, [], 0, some ("Unexpected error in retrieve_context: " ++ e)⟩
      | .ok doc_count =>
        if doc_count = 0 then
          mkResult ⟨query, [], 0, some "No documents in collection"⟩
        else
          processStoreResponse query (c.query (min TOP_K_RESULTS doc_count))

/-- Extract the `QueryResult` embedded in a tool result (the JSON text of
its first content item). -/
def resultQueryResult (r : ToolResult) : Option QueryResult :=
  r.content.head?.map ContentItem.text

/-- The relevant content of a pydantic-validated `MCPRequest`:
`jsonrpc`, `id`, `method`, and the two entries the handler reads from
`params`: `params.get("name")` and the `"query"` entry of
`params.get("arguments", {})` (`none` covers both a missing `arguments`
dict and a missing `query` key). -/
structure MCPRequest where
  jsonrpc : String
  id : Int
  method : String
  params_name : Option String
  params_arguments_query : Option String
deriving DecidableEq, Repr

/-- A JSON-RPC error object `{"code": ..., "message": ...}`. -/
structure RpcError where
  code : Int
  message : String
deriving DecidableEq, Repr

/-- The `MCPResponse` pydantic model: `jsonrpc`, `id`, and optional
`result` / `error` members. -/
structure MCPResponse where
  jsonrpc : String
  id : Int
  result : Option ToolResult
  error : Option RpcError
deriving DecidableEq, Repr

/-- What the endpoint hands back to FastAPI: either a raised
`HTTPException` (an HTTP-level failure with a status code and detail) or a
JSON body. -/
inductive HttpOutcome where
  | httpError (status : Nat) (detail : String)
  | response (body : MCPResponse)
deriving DecidableEq, Repr

/-- Python `f"{tool_name}"` on an optional string: `None` prints as
`"None"`. -/
def pyShow : Option String → String
  | none => "None"
  | some s => s

/-- `mcp_server.mcp_tools_call`: validate the JSON-RPC version (raising
`HTTPException(400)`, re-raised by the `except HTTPException` arm), then
route: method `"tools/call"` with tool `"retrieve_context"` runs the tool;
an unknown tool or method yields a `-32601` JSON-RPC error envelope. -/
def mcp_tools_call (coll : Option Collection) (req : MCPRequest) : HttpOutcome :=
  if req.jsonrpc ≠ "2.0" then
    .httpError 400 ("Invalid JSON-RPC version: " ++ req.jsonrpc)
  else if req.method = "tools/call" then
    if req.params_name = some "retrieve_context" then
      .response ⟨"2.0", req.id,
        some (retrieve_context_tool coll req.params_arguments_query), none⟩
    else
      .response ⟨"2.0", req.id, none,
        some ⟨-32601, "Unknown tool: " ++ pyShow req.params_name⟩⟩
  else
    .response ⟨"2.0", req.id, none,
      some ⟨-32601, "Unknown method: " ++ req.method⟩⟩

/-! ## Ingestion (`ingest_data.ingest_text_file`) -/

/-- `str.strip()` on `String`s (used for the `content.strip()` emptiness
test). -/
def pyStripStr (s : String) : String :=
  String.mk (pyStrip s.data)

/-- Python `os.path.basename`: the part after the last `/`. -/
def pyBasename (path : String) : String :=
  (path.splitOn "/").getLastD ""

/-- The metadata dict `ingest_text_file` attaches to the `i`-th chunk. -/
structure ChunkMetadata where
  source_file : String
  chunk_index : Nat
  total_chunks : Nat
  indexed_at : String
  chunk_size : Nat
deriving DecidableEq, Repr

/-- The `for i, chunk in enumerate(chunks)` metadata-construction loop of
`ingest_text_file`. -/
def buildMetadatas (chunks : List String) (file_name timestamp : String) :
    List ChunkMetadata :=
  chunks.enum.map fun p => ⟨file_name, p.1, chunks.length, timestamp, p.2.length⟩

/-- The unique id of the `i`-th chunk:
`f"{file_name}_{i}_{timestamp}".replace(" ", "_").replace("/", "_")`. -/
def chunkId (file_name : String) (i : Nat) (timestamp : String) : String :=
  ((file_name ++ "_" ++ toString i ++ "_" ++ timestamp).replace " " "_").replace "/" "_"

/-- The id-construction part of the same loop. -/
def buildIds (chunks : List String) (file_name timestamp : String) : List String :=
  chunks.enum.map fun p => chunkId file_name p.1 timestamp

/-- The ChromaDB collection handle as the ingestor uses it: the outcome of
`collection.add(documents, metadatas, ids)` as a function of the batch
payload, and the outcome of the verification `collection.count()`. -/
structure IngestCollection where
  add : List String → List ChunkMetadata → List String → Except String Unit
  count : Except String Nat

/-- The ingestor's environment: the file system (`os.path.exists` plus
`open(...).read()`, `none` when the path is missing or unreadable) and the
outcome of `chromadb.PersistentClient` + `get_or_create_collection`. -/
structure IngestEnv where
  fs : String → Option String
  connect : Except String IngestCollection

/-- `ingest_data.ingest_text_file`.  The `datetime.utcnow().isoformat()`
timestamp is an explicit input.  Returns the number of chunks added; every
failure branch (missing file, empty content, connection failure, no
chunks, write failure, failing verification count — each a `return 0` or a
caught exception in the source) returns `0`.  Total: it never raises. -/
def ingest_text_file (env : IngestEnv) (file_path : String) (timestamp : String) :
    Nat :=
  match env.fs file_path with
  | none => 0
  | some content =>
    if pyStripStr content = "" then 0
    else
      match env.connect with
      | .error _ => 0
      | .ok coll =>
        let chunks := chunk_text content CHUNK_SIZE OVERLAP
        if chunks.isEmpty then 0
        else
          let file_name := pyBasename file_path
          let documents := chunks
          let metadatas := buildMetadatas chunks file_name timestamp
          let ids := buildIds chunks file_name timestamp
          match coll.add documents metadatas ids with
          | .error _ => 0
          | .ok _ =>
            match coll.count with
            | .error _ => 0
            | .ok _ => chunks.length

/-! ## Failure conditions of the query tier -/

/-- The store answered, but its lists are shaped so that the formatting
loop raises `IndexError`: a non-empty `ids[0]` with `documents[0]` or
`distances[0]` missing or too short. -/
def storeFormatFailure (res : StoreResults) : Prop :=
  ∃ inner tl, res.ids = inner :: tl ∧ inner ≠ [] ∧
    (res.documents.head? = none ∨ res.distances.head? = none ∨
      ∃ docs dists, res.documents.head? = some docs ∧
        res.distances.head? = some dists ∧ formatChunks inner docs dists = none)

/-- The failure conditions of `retrieve_context_tool` enumerated by the
spec: missing/empty query, uninitialized collection, a raising `count()`,
an empty collection, a raising store query, or a malformed store answer
(the unexpected-exception path). -/
def queryFailure (coll : Option Collection) (args : Option String) : Prop :=
  pyFalsy args = true ∨
  coll = none ∨
  ∃ c, coll = some c ∧
    ((∃ e, c.count = .error e) ∨
      c.count = .ok 0 ∨
      ∃ n, c.count = .ok n ∧ n ≠ 0 ∧
        ((∃ e, c.query (min TOP_K_RESULTS n) = .error e) ∨
          ∃ res, c.query (min TOP_K_RESULTS n) = .ok res ∧ storeFormatFailure res))

/-! ## Concrete fixtures used to instantiate the theorems -/

/-- A store handle holding five documents whose query answer returns three
well-shaped hits. -/
def sampleCollection : Collection :=
  ⟨.ok 5, fun _ =>
    .ok ⟨[["a", "b", "c"]], [["da", "db", "dc"]], [[0, (1 : ℚ)/2, 1]]⟩⟩

/-- A store handle holding two documents whose query answer reports one hit
at distance 2 (a distance above 1, giving a negative relevance score). -/
def farCollection : Collection :=
  ⟨.ok 2, fun _ => .ok ⟨[["i1"]], [["c1"]], [[2]]⟩⟩

/-- An ingestion environment with one readable file and a healthy store. -/
def sampleIngestEnv : IngestEnv :=
  ⟨fun p => if p = "kb.txt" then some "hello" else none,
    .ok ⟨fun _ _ _ => .ok (), .ok 1⟩⟩

/-- An ingestion environment whose store write always fails. -/
def failingIngestEnv : IngestEnv :=
  ⟨fun p => if p = "kb.txt" then some "hello" else none,
    .ok ⟨fun _ _ _ => .error "write failed", .ok 1⟩⟩

/-! ## Chunker lemmas -/

/-- Once `start` has reached the end of the text, the loop stops at once,
whatever fuel remains. -/
theorem chunkFrom_stop (text : List Char) (cs ov fuel start : Nat)
    (h : ¬ start < text.length) :
    chunkFrom text cs ov fuel start = some [] := by
  cases fuel <;> simp [chunkFrom, h]

/-- With a positive step, `text.length - start` units of fuel run the loop
to completion, and the result is exactly the spec's algorithm started at
`start`. -/
theorem chunkFrom_eq_spec (text : List Char) (cs ov : Nat) (h : 0 < cs - ov) :
    ∀ fuel start, text.length - start ≤ fuel →
      chunkFrom text cs ov fuel start = some (specChunksFrom text cs ov start) := by
  intro fuel
  induction fuel with
  | zero =>
    intro start hf
    have hs : ¬ start < text.length := by omega
    rw [chunkFrom_stop text cs ov 0 start hs, specChunksFrom]
    simp [hs]
  | succ n ih =>
    intro start hf
    by_cases hs : start < text.length
    · rw [chunkFrom, specChunksFrom]
      simp only [hs, if_true, dif_pos (And.intro hs h)]
      rw [ih (start + (cs - ov)) (by omega)]
      by_cases he : (pyStrip ((text.drop start).take cs)).isEmpty <;>
        simp [he, show ov < cs by omega]
    · rw [chunkFrom_stop text cs ov (n + 1) start hs, specChunksFrom]
      simp [hs]

/-- The source's chunker equals the spec's algorithm (as an `Option`,
showing at the same time that the default fuel suffices). -/
theorem chunkTextChars_eq_spec (text : List Char) (cs ov : Nat) (hov : ov < cs) :
    chunkTextChars text cs ov = some (specChunksFrom text cs ov 0) := by
  have hstep : 0 < cs - ov := by omega
  unfold chunkTextChars
  by_cases he : text.isEmpty
  · have : text = [] := List.isEmpty_iff.mp he
    subst this
    rw [specChunksFrom]
    simp
  · simp only [he, if_false]
    exact chunkFrom_eq_spec text cs ov hstep text.length 0 (by omega)

/-- String-level form of the equivalence. -/
theorem chunk_text_eq_spec (text : String) (cs ov : Nat) (hov : ov < cs) :
    chunk_text text cs ov = (specChunksFrom text.data cs ov 0).map String.mk := by
  unfold chunk_text
  rw [chunkTextChars_eq_spec text.data cs ov hov]

/-- If the step is zero (Python: `overlap ≥ chunk_size`) and the text is
non-empty, the loop never finishes: no amount of fuel reaches the exit. -/
theorem chunkFrom_none_of_no_progress (text : List Char) (cs ov : Nat)
    (hov : cs ≤ ov) (ht : text ≠ []) :
    ∀ fuel, chunkFrom text cs ov fuel 0 = none := by
  have hlen : 0 < text.length := List.length_pos.mpr ht
  have hstep : cs - ov = 0 := by omega
  intro fuel
  induction fuel with
  | zero => simp [chunkFrom, hlen]
  | succ n ih =>
    rw [chunkFrom]
    simp only [hlen, if_true, hstep, Nat.add_zero]
    rw [ih]

/-! ## Claim theorems: the chunker -/

/-- C4: for every text, `chunk_size > 0` and `0 ≤ overlap < chunk_size`,
`chunk_text` follows exactly the spec's algorithm — slice
`[start, start+chunk_size)`, trim, append iff non-empty, advance by
`chunk_size - overlap`, stop when `start ≥ len(text)` — and the empty
input text yields the empty sequence. -/
theorem chunk_text_follows_spec_algorithm (text : String) (cs ov : Nat)
    (_hcs : 0 < cs) (hov : ov < cs) :
    chunk_text text cs ov = chunkTextSpecAlgorithm text cs ov ∧
      (text = "" → chunk_text text cs ov = []) := by
  refine ⟨?_, ?_⟩
  · rw [chunk_text_eq_spec text cs ov hov]
    rfl
  · intro h
    subst h
    rfl

/-- C4 witness: the equivalence instantiated at a concrete input. -/
theorem chunk_text_follows_spec_algorithm_witness :
    chunk_text "hello world" 5 2 = chunkTextSpecAlgorithm "hello world" 5 2 ∧
      ("hello world" = "" → chunk_text "hello world" 5 2 = []) :=
  chunk_text_follows_spec_algorithm "hello world" 5 2 (by decide) (by decide)

/-- C2 counterexample: `"abcd"` with `chunk_size = 5`, `overlap = 4`
satisfies every hypothesis of the claim (length `4 < 5`, `0 ≤ 4 < 5`,
trimmed text non-empty) yet `chunk_text` returns four chunks
`["abcd", "bcd", "cd", "d"]`, not the single whole trimmed text. -/
theorem chunk_text_short_not_single :
    ("abcd".data.length < 5 ∧ 4 < 5 ∧ pyStrip "abcd".data ≠ []) ∧
      chunk_text "abcd" 5 4 ≠ [String.mk (pyStrip "abcd".data)] := by
  decide

/-- C2 (amended): a text shorter than `chunk_size` whose length is also at
most the step `chunk_size - overlap` (so the second loop offset already
falls past the end) yields exactly one chunk, the whole trimmed text,
provided that is non-empty. -/
theorem chunk_text_short_single (text : String) (cs ov : Nat)
    (hov : ov < cs) (hshort : text.data.length < cs)
    (hstep : text.data.length ≤ cs - ov)
    (hne : pyStrip text.data ≠ []) :
    chunk_text text cs ov = [String.mk (pyStrip text.data)] := by
  have htne : text.data ≠ [] := by
    intro h
    apply hne
    rw [h]
    rfl
  have hlen : 0 < text.data.length := List.length_pos.mpr htne
  rw [chunk_text_eq_spec text cs ov hov, specChunksFrom]
  have hguard : 0 < cs - ov := by omega
  have hstop : ¬ (0 + (cs - ov) < text.data.length) := by omega
  rw [specChunksFrom]
  have hlen2 : 0 < text.length := hlen
  have hstop2 : ¬ cs - ov < text.length := by
    show ¬ cs - ov < text.data.length
    omega
  simp [hlen, hguard, hstop, List.take_of_length_le (le_of_lt hshort),
    List.isEmpty_iff, hne, hlen2, hstop2]

/-- C2 witness: `"hi"` with `chunk_size = 5`, `overlap = 2` meets the
amended hypotheses and gives the single trimmed chunk. -/
theorem chunk_text_short_single_witness :
    chunk_text "hi" 5 2 = [String.mk (pyStrip "hi".data)] :=
  chunk_text_short_single "hi" 5 2 (by decide) (by decide) (by decide) (by decide)

/-- C3 counterexample: `chunk_text "hello world" 5 0` is not
`["hello", "world"]`. -/
theorem chunk_text_hello_world_not_worked :
    chunk_text "hello world" 5 0 ≠ ["hello", "world"] := by
  decide

/-- C3 (amended): `chunk_text "hello world" 5 0` returns
`["hello", "worl", "d"]` (offsets 0, 5, 10; the middle slice `" worl"`
trims to `"worl"`). -/
theorem chunk_text_hello_world :
    chunk_text "hello world" 5 0 = ["hello", "worl", "d"] := by
  decide

/-- C10: with `chunk_size > 0` and `0 ≤ overlap < chunk_size` the chunking
loop terminates — `text.length` iterations of fuel already reach the exit —
while without the precondition (step `chunk_size - overlap` not positive)
the loop started on any non-empty text never finishes, whatever the fuel,
since the code performs no fail-fast validation. -/
theorem chunk_text_terminates (text : String) (cs ov : Nat)
    (_hcs : 0 < cs) (hov : ov < cs) :
    (chunkTextChars text.data cs ov).isSome ∧
      (∀ t : List Char, t ≠ [] → ∀ cs2 ov2 : Nat, cs2 ≤ ov2 →
        ∀ fuel, chunkFrom t cs2 ov2 fuel 0 = none) := by
  refine ⟨?_, ?_⟩
  · rw [chunkTextChars_eq_spec text.data cs ov hov]
    rfl
  · exact fun t ht cs2 ov2 h2 fuel => chunkFrom_none_of_no_progress t cs2 ov2 h2 ht fuel

/-- C10 witness: termination at a concrete input. -/
theorem chunk_text_terminates_witness :
    (chunkTextChars "ab".data 2 1).isSome :=
  (chunk_text_terminates "ab" 2 1 (by decide) (by decide)).1

/-! ## Server lemmas -/

/-- Reading back the payload of `mkResult`. -/
theorem resultQueryResult_mkResult (qr : QueryResult) :
    resultQueryResult (mkResult qr) = some qr := rfl

/-- A string with a non-empty prefix is non-empty. -/
theorem append_ne_empty_left (s t : String) (h : s ≠ "") : s ++ t ≠ "" := by
  intro hc
  apply h
  have hd := congrArg String.data hc
  rw [String.data_append] at hd
  exact String.ext (List.append_eq_nil.mp hd).1

/-- When the formatting loop succeeds it emits one chunk per id, in order,
whose relevance score is exactly `1 - distance`. -/
theorem formatChunks_spec :
    ∀ (ids docs : List String) (dists : List ℚ) (chunks : List ChunkOut),
      formatChunks ids docs dists = some chunks →
      chunks.length = ids.length ∧
        chunks.map ChunkOut.relevance_score =
          (dists.take ids.length).map (fun d => 1 - d)
  | [], docs, dists, chunks => by
    intro h
    simp only [formatChunks, Option.some.injEq] at h
    subst h
    simp
  | doc_id :: ids, [], dists, chunks => by
    intro h
    simp [formatChunks] at h
  | doc_id :: ids, doc :: docs, [], chunks => by
    intro h
    simp [formatChunks] at h
  | doc_id :: ids, doc :: docs, d :: dists, chunks => by
    intro h
    rw [formatChunks] at h
    cases hrec : formatChunks ids docs dists with
    | none => rw [hrec] at h; simp at h
    | some rest =>
      rw [hrec] at h
      simp only [Option.some.injEq] at h
      subst h
      have ih := formatChunks_spec ids docs dists rest hrec
      refine ⟨by simp [ih.1], ?_⟩
      simp [List.take_succ_cons, ih.2]

/-- Whatever the store answered, the downstream formatting produces a
single-text-item tool result. -/
theorem processStoreResponse_shape (q : String) (r : Except String StoreResults) :
    ∃ qr, processStoreResponse q r = mkResult qr := by
  unfold processStoreResponse
  rcases r with e | res
  · exact ⟨_, rfl⟩
  · rcases res with ⟨ids, docs, dists⟩
    rcases ids with _ | ⟨inner, tl⟩
    · exact ⟨_, rfl⟩
    · dsimp only
      by_cases hin : inner.isEmpty
      · rw [if_pos hin]
        exact ⟨_, rfl⟩
      · rw [if_neg hin]
        rcases docs with _ | ⟨docs0, dtl⟩ <;> rcases dists with _ | ⟨dists0, ddtl⟩
        · exact ⟨_, rfl⟩
        · exact ⟨_, rfl⟩
        · exact ⟨_, rfl⟩
        · dsimp only [List.head?]
          cases hfc : formatChunks inner docs0 dists0
          · exact ⟨_, rfl⟩
          · exact ⟨_, rfl⟩

/-- The tool always returns a single-text-item result, whatever its
inputs. -/
theorem retrieve_context_tool_shape (coll : Option Collection) (args : Option String) :
    ∃ qr, retrieve_context_tool coll args = mkResult qr := by
  unfold retrieve_context_tool
  split
  · exact ⟨_, rfl⟩
  · split
    · exact ⟨_, rfl⟩
    · split
      · exact ⟨_, rfl⟩
      · split
        · exact ⟨_, rfl⟩
        · exact processStoreResponse_shape _ _

/-- Whatever shape the store's answer has, the found-count of the formatted
result never exceeds a bound on the length of the answer's first id
list. -/
theorem processStoreResponse_found (q : String) (r : Except String StoreResults)
    (k : Nat)
    (h : ∀ res inner tl, r = .ok res → res.ids = inner :: tl → inner.length ≤ k) :
    ∀ qr, resultQueryResult (processStoreResponse q r) = some qr →
      qr.chunks_found ≤ k := by
  intro qr hqr
  rcases r with e | res
  · dsimp only [processStoreResponse] at hqr
    rw [resultQueryResult_mkResult] at hqr
    obtain rfl := Option.some.inj hqr
    exact Nat.zero_le k
  · have hres := fun inner tl hids => h res inner tl rfl hids
    dsimp only [processStoreResponse] at hqr
    split at hqr
    · rw [resultQueryResult_mkResult] at hqr
      obtain rfl := Option.some.inj hqr
      exact Nat.zero_le k
    · rename_i inner tl hids
      split at hqr
      · rw [resultQueryResult_mkResult] at hqr
        obtain rfl := Option.some.inj hqr
        exact Nat.zero_le k
      · split at hqr
        · rename_i docs dists hdocs hdists
          split at hqr
          · rename_i chunks hfc
            rw [resultQueryResult_mkResult] at hqr
            obtain rfl := Option.some.inj hqr
            have hb := hres inner tl hids
            have hl := (formatChunks_spec inner docs dists chunks hfc).1
            simpa [hl] using hb
          · rw [resultQueryResult_mkResult] at hqr
            obtain rfl := Option.some.inj hqr
            exact Nat.zero_le k
        · rw [resultQueryResult_mkResult] at hqr
          obtain rfl := Option.some.inj hqr
          exact Nat.zero_le k

/-- When the query is non-empty, the collection is live and its count is a
non-zero `n`, the tool's result is exactly the formatting of the store's
answer to a top-`min TOP_K_RESULTS n` query. -/
theorem retrieve_context_tool_query_step (c : Collection) (q : String) (n : Nat)
    (hq : q ≠ "") (hc : c.count = .ok n) (hn : n ≠ 0) :
    retrieve_context_tool (some c) (some q) =
      processStoreResponse q (c.query (min TOP_K_RESULTS n)) := by
  have hfalsy : pyFalsy (some q) = false := by simp [pyFalsy, hq]
  unfold retrieve_context_tool
  rw [hfalsy]
  simp only [Bool.false_eq_true, if_false, hc, hn, if_neg hn, Option.getD_some]

/-! ## Claim theorems: the query tier -/

/-- C1: `retrieve_context_tool` never raises — it is a total function that
always returns the single-text-item MCP shape — and on every failure
condition (missing/empty query, uninitialized collection, raising
`count()`, empty collection, store query failure, unexpected formatting
exception) the embedded `QueryResult` has `context_chunks = []`,
`chunks_found = 0` and a non-empty human-readable warning string. -/
theorem retrieve_context_never_raises (coll : Option Collection)
    (args : Option String) :
    (∃ qr, retrieve_context_tool coll args = mkResult qr) ∧
      (queryFailure coll args →
        ∃ qr, retrieve_context_tool coll args = mkResult qr ∧
          qr.context_chunks = [] ∧ qr.chunks_found = 0 ∧
          ∃ w, qr.warning = some w ∧ w ≠ "") := by
  refine ⟨retrieve_context_tool_shape coll args, fun hfail => ?_⟩
  by_cases hq : pyFalsy args = true
  · refine ⟨⟨"", [], 0, some "Missing required argument: 'query'"⟩,
      ?_, rfl, rfl, _, rfl, by decide⟩
    simp [retrieve_context_tool, hq]
  · rcases hfail with h | h | ⟨c, hcoll, hc⟩
    · exact absurd h hq
    · subst h
      refine ⟨⟨args.getD "", [], 0, some "ChromaDB collection not initialized"⟩,
        ?_, rfl, rfl, _, rfl, by decide⟩
      simp [retrieve_context_tool, hq]
    · subst hcoll
      rcases hc with ⟨e, hce⟩ | hc0 | ⟨n, hcn, hn0, hrest⟩
      · refine ⟨⟨args.getD "", [], 0,
          some ("Unexpected error in retrieve_context: " ++ e)⟩,
          ?_, rfl, rfl, _, rfl, append_ne_empty_left _ _ (by decide)⟩
        simp [retrieve_context_tool, hq, hce]
      · refine ⟨⟨args.getD "", [], 0, some "No documents in collection"⟩,
          ?_, rfl, rfl, _, rfl, by decide⟩
        simp [retrieve_context_tool, hq, hc0]
      · rcases hrest with ⟨e, hqe⟩ | ⟨res, hok, hsf⟩
        · refine ⟨⟨args.getD "", [], 0, some ("ChromaDB query failed: " ++ e)⟩,
            ?_, rfl, rfl, _, rfl, append_ne_empty_left _ _ (by decide)⟩
          simp [retrieve_context_tool, hq, hcn, hn0, hqe, processStoreResponse]
        · rcases hsf with ⟨inner, tl, hids, hinner, hbad⟩
          rcases inner with _ | ⟨i0, it⟩
          · exact absurd rfl hinner
          · refine ⟨⟨args.getD "", [], 0,
              some "Unexpected error in retrieve_context: list index out of range"⟩,
              ?_, rfl, rfl, _, rfl, by decide⟩
            have hstep : retrieve_context_tool (some c) args =
                processStoreResponse (args.getD "") (c.query (min TOP_K_RESULTS n)) := by
              simp [retrieve_context_tool, hq, hcn, hn0]
            rw [hstep, hok]
            rcases hbad with hdoc | hdist | ⟨docs, dists, hdo, hdi, hfc⟩
            · simp [processStoreResponse, hids, hdoc]
            · rcases hdoc2 : res.documents.head? with _ | docs
              · simp [processStoreResponse, hids, hdoc2]
              · simp [processStoreResponse, hids, hdoc2, hdist]
            · simp [processStoreResponse, hids, hdo, hdi, hfc]

/-- C1 witness: the never-fail contract evaluated at an uninitialized
collection. -/
theorem retrieve_context_never_raises_witness :
    ∃ qr, retrieve_context_tool none (some "what phones are in stock") = mkResult qr ∧
      qr.context_chunks = [] ∧ qr.chunks_found = 0 ∧
      ∃ w, qr.warning = some w ∧ w ≠ "" :=
  (retrieve_context_never_raises none (some "what phones are in stock")).2
    (Or.inr (Or.inl rfl))

/-- C7: with a live, non-empty collection (count `n ≠ 0`) and a non-empty
query, the tool asks the store for the top `min TOP_K_RESULTS n` chunks
with `TOP_K_RESULTS = 3`, and — provided the store returns at most as many
ids as requested — the returned `chunks_found` is at most `min 3 n`. -/
theorem retrieve_context_top_k (c : Collection) (q : String) (n : Nat)
    (hq : q ≠ "") (hc : c.count = .ok n) (hn : n ≠ 0) :
    TOP_K_RESULTS = 3 ∧
    retrieve_context_tool (some c) (some q) =
      processStoreResponse q (c.query (min TOP_K_RESULTS n)) ∧
    ((∀ res inner tl, c.query (min TOP_K_RESULTS n) = .ok res →
        res.ids = inner :: tl → inner.length ≤ min TOP_K_RESULTS n) →
      ∀ qr, resultQueryResult (retrieve_context_tool (some c) (some q)) = some qr →
        qr.chunks_found ≤ min 3 n) := by
  have hmain := retrieve_context_tool_query_step c q n hq hc hn
  refine ⟨rfl, hmain, fun hlen qr hqr => ?_⟩
  exact processStoreResponse_found q (c.query (min TOP_K_RESULTS n))
    (min TOP_K_RESULTS n) hlen qr (by rw [← hmain]; exact hqr)

/-- C7 witness: the bound evaluated against a five-document collection
whose store answers with three hits. -/
theorem retrieve_context_top_k_witness :
    TOP_K_RESULTS = 3 ∧
    retrieve_context_tool (some sampleCollection) (some "phones") =
      processStoreResponse "phones" (sampleCollection.query (min TOP_K_RESULTS 5)) ∧
    ((∀ res inner tl, sampleCollection.query (min TOP_K_RESULTS 5) = .ok res →
        res.ids = inner :: tl → inner.length ≤ min TOP_K_RESULTS 5) →
      ∀ qr, resultQueryResult
          (retrieve_context_tool (some sampleCollection) (some "phones")) = some qr →
        qr.chunks_found ≤ min 3 5) :=
  retrieve_context_top_k sampleCollection "phones" 5 (by decide) rfl (by decide)

/-- C8: every chunk the query operation returns carries
`relevance_score = 1 - d` for the distance `d` the store reported at the
same position, with no clamping — and `1 - d` is negative for any distance
`d > 1`. -/
theorem relevance_score_is_one_minus_distance (c : Collection) (q : String)
    (n : Nat) (res : StoreResults) (inner docs : List String)
    (tl : List (List String)) (dists : List ℚ) (chunks : List ChunkOut)
    (hq : q ≠ "") (hc : c.count = .ok n) (hn : n ≠ 0)
    (hqe : c.query (min TOP_K_RESULTS n) = .ok res)
    (hids : res.ids = inner :: tl) (hinner : inner ≠ [])
    (hdocs : res.documents.head? = some docs)
    (hdists : res.distances.head? = some dists)
    (hfc : formatChunks inner docs dists = some chunks) :
    resultQueryResult (retrieve_context_tool (some c) (some q)) =
      some ⟨q, chunks, chunks.length, none⟩ ∧
    chunks.map ChunkOut.relevance_score =
      (dists.take inner.length).map (fun d => 1 - d) ∧
    (∀ d : ℚ, 1 < d → 1 - d < 0) := by
  refine ⟨?_, (formatChunks_spec inner docs dists chunks hfc).2,
    fun d hd => by linarith⟩
  rw [retrieve_context_tool_query_step c q n hq hc hn, hqe]
  rcases inner with _ | ⟨i0, it⟩
  · exact absurd rfl hinner
  · simp [processStoreResponse, hids, hdocs, hdists, hfc, resultQueryResult, mkResult]

/-- C8 witness: a store distance of `2` yields the relevance score `-1`. -/
theorem relevance_score_is_one_minus_distance_witness :
    resultQueryResult (retrieve_context_tool (some farCollection) (some "q")) =
      some ⟨"q", [⟨"i1", "c1", -1⟩], [(⟨"i1", "c1", -1⟩ : ChunkOut)].length, none⟩ :=
  (relevance_score_is_one_minus_distance farCollection "q" 2
    ⟨[["i1"]], [["c1"]], [[2]]⟩ ["i1"] ["c1"] [] [2] [⟨"i1", "c1", -1⟩]
    (by decide) rfl (by decide) rfl rfl (by decide) rfl rfl
    (by norm_num [formatChunks])).1

/-! ## Claim theorems: the endpoint -/

/-- C5 counterexample: a request whose only envelope flaw is a wrong
JSON-RPC version (`"1.0"`) makes the endpoint raise `HTTPException 400` —
an HTTP-level failure, not a JSON-RPC error object. -/
theorem mcp_tools_call_bad_version_is_http_failure :
    mcp_tools_call none ⟨"1.0", 1, "tools/call", some "retrieve_context", some "q"⟩ =
      .httpError 400 "Invalid JSON-RPC version: 1.0" ∧
    ∀ body, mcp_tools_call none
      ⟨"1.0", 1, "tools/call", some "retrieve_context", some "q"⟩ ≠ .response body := by
  have h1 : mcp_tools_call none
      ⟨"1.0", 1, "tools/call", some "retrieve_context", some "q"⟩ =
      .httpError 400 "Invalid JSON-RPC version: 1.0" := by decide
  exact ⟨h1, fun body hb => by rw [h1] at hb; exact HttpOutcome.noConfusion hb⟩

/-- C5 (amended): with the correct version `"2.0"`, an unknown method or
unknown tool name yields a JSON-RPC error envelope with code `-32601` (id
echoed, no result member) and never an HTTP-level failure; a wrong JSON-RPC
version instead raises an HTTP 400 error. -/
theorem mcp_tools_call_unknown_gives_rpc_error (coll : Option Collection)
    (req : MCPRequest) (hv : req.jsonrpc = "2.0")
    (hu : req.method ≠ "tools/call" ∨ req.params_name ≠ some "retrieve_context") :
    ∃ msg, mcp_tools_call coll req =
      .response ⟨"2.0", req.id, none, some ⟨-32601, msg⟩⟩ := by
  unfold mcp_tools_call
  rw [hv]
  simp only [ne_eq, not_true_eq_false, if_false]
  by_cases hm : req.method = "tools/call"
  · rcases hu with hu | hu
    · exact absurd hm hu
    · rw [if_pos hm, if_neg hu]
      exact ⟨_, rfl⟩
  · rw [if_neg hm]
    exact ⟨_, rfl⟩

/-- C5 witness: an unknown method gets the `-32601` envelope. -/
theorem mcp_tools_call_unknown_gives_rpc_error_witness :
    ∃ msg, mcp_tools_call none ⟨"2.0", 7, "tools/list", none, none⟩ =
      .response ⟨"2.0", 7, none, some ⟨-32601, msg⟩⟩ :=
  mcp_tools_call_unknown_gives_rpc_error none ⟨"2.0", 7, "tools/list", none, none⟩
    rfl (Or.inl (by decide))

/-! ## Claim theorems: ingestion -/

/-- C6: `ingest_text_file` never raises (it is a total function of its
environment) and returns `0` on every failure — missing file, content empty
after stripping, store connection failure, write failure — while on success
it returns the number of chunks written. -/
theorem ingest_text_file_reports_chunks (env : IngestEnv)
    (file_path timestamp : String) :
    (env.fs file_path = none → ingest_text_file env file_path timestamp = 0) ∧
    (∀ content, env.fs file_path = some content → pyStripStr content = "" →
      ingest_text_file env file_path timestamp = 0) ∧
    (∀ e, env.connect = .error e → ingest_text_file env file_path timestamp = 0) ∧
    (∀ coll, env.connect = .ok coll →
      (∀ d m i, ∃ e, coll.add d m i = .error e) →
      ingest_text_file env file_path timestamp = 0) ∧
    (∀ content coll m, env.fs file_path = some content → pyStripStr content ≠ "" →
      env.connect = .ok coll → (∀ d ms i, coll.add d ms i = .ok ()) →
      coll.count = .ok m →
      ingest_text_file env file_path timestamp =
        (chunk_text content CHUNK_SIZE OVERLAP).length) := by
  refine ⟨fun hfs => ?_, fun content hfs hempty => ?_, fun e hconn => ?_,
    fun coll hconn hadd => ?_, fun content coll m hfs hne hconn hadd hcount => ?_⟩
  · simp [ingest_text_file, hfs]
  · simp [ingest_text_file, hfs, hempty]
  · cases hfs : env.fs file_path with
    | none => simp [ingest_text_file, hfs]
    | some content =>
      by_cases hempty : pyStripStr content = ""
      · simp [ingest_text_file, hfs, hempty]
      · simp [ingest_text_file, hfs, hempty, hconn]
  · cases hfs : env.fs file_path with
    | none => simp [ingest_text_file, hfs]
    | some content =>
      by_cases hempty : pyStripStr content = ""
      · simp [ingest_text_file, hfs, hempty]
      · by_cases hchunks : (chunk_text content CHUNK_SIZE OVERLAP).isEmpty
        · simp [ingest_text_file, hfs, hempty, hconn, hchunks]
        · obtain ⟨e, he⟩ := hadd (chunk_text content CHUNK_SIZE OVERLAP)
            (buildMetadatas (chunk_text content CHUNK_SIZE OVERLAP)
              (pyBasename file_path) timestamp)
            (buildIds (chunk_text content CHUNK_SIZE OVERLAP)
              (pyBasename file_path) timestamp)
          simp [ingest_text_file, hfs, hempty, hconn, hchunks, he]
  · by_cases hchunks : (chunk_text content CHUNK_SIZE OVERLAP).isEmpty
    · have : (chunk_text content CHUNK_SIZE OVERLAP).length = 0 := by
        simp [List.isEmpty_iff.mp hchunks]
      simp [ingest_text_file, hfs, hne, hconn, hchunks, this]
    · simp [ingest_text_file, hfs, hne, hconn, hchunks, hadd, hcount]

/-- C6 witness: a healthy environment returns the chunk count; the same
theorem instantiated at a failing write returns `0`. -/
theorem ingest_text_file_reports_chunks_witness :
    ingest_text_file sampleIngestEnv "kb.txt" "2024-01-01T00:00:00" =
      (chunk_text "hello" CHUNK_SIZE OVERLAP).length ∧
    ingest_text_file failingIngestEnv "kb.txt" "2024-01-01T00:00:00" = 0 := by
  constructor
  · exact (ingest_text_file_reports_chunks sampleIngestEnv "kb.txt"
      "2024-01-01T00:00:00").2.2.2.2 "hello" ⟨fun _ _ _ => .ok (), .ok 1⟩ 1
      (by decide) (by decide) rfl (fun _ _ _ => rfl) rfl
  · exact (ingest_text_file_reports_chunks failingIngestEnv "kb.txt"
      "2024-01-01T00:00:00").2.2.2.1 ⟨fun _ _ _ => .error "write failed", .ok 1⟩
      rfl (fun _ _ _ => ⟨"write failed", rfl⟩)

/-- C9: the metadata records built in one ingestion run all share the run's
`indexed_at` timestamp and `source_file`, their `chunk_index` fields are
contiguous `0..total_chunks-1` in order, and every `total_chunks` field is
the number of chunks written. -/
theorem ingestion_metadata_invariants (chunks : List String)
    (file_name timestamp : String) :
    (buildMetadatas chunks file_name timestamp).length = chunks.length ∧
    ∀ i (h : i < (buildMetadatas chunks file_name timestamp).length),
      ((buildMetadatas chunks file_name timestamp).get ⟨i, h⟩).indexed_at = timestamp ∧
      ((buildMetadatas chunks file_name timestamp).get ⟨i, h⟩).source_file = file_name ∧
      ((buildMetadatas chunks file_name timestamp).get ⟨i, h⟩).chunk_index = i ∧
      ((buildMetadatas chunks file_name timestamp).get ⟨i, h⟩).total_chunks =
        chunks.length := by
  have hlen : (buildMetadatas chunks file_name timestamp).length = chunks.length := by
    simp [buildMetadatas]
  refine ⟨hlen, fun i h => ?_⟩
  have hi : i < chunks.length := hlen ▸ h
  simp [buildMetadatas, List.get_eq_getElem]

/-- C9 witness: the invariants at a two-chunk run. -/
theorem ingestion_metadata_invariants_witness :
    ((buildMetadatas ["ab", "c"] "kb.txt" "t").get ⟨1, by decide⟩).chunk_index = 1 ∧
    ((buildMetadatas ["ab", "c"] "kb.txt" "t").get ⟨1, by decide⟩).total_chunks = 2 := by
  have h := (ingestion_metadata_invariants ["ab", "c"] "kb.txt" "t").2 1 (by decide)
  exact ⟨h.2.2.1, h.2.2.2⟩
